import Mathlib

/-!
Shallow embedding of the springsteel executor core, translated from
`src/glib_future.rs` and `src/impulse_stream.rs`.

The Rust code is callback-driven and reference-counted; here state is passed
explicitly.  Machine integers that can only grow (`pending`, Arc strong counts)
are `Nat`; `Option` fields are `Option`; glib `SourceId` tokens are `Nat`;
stored `std::task::Waker` values are identified by a `Nat` id (the stream code
never inspects a waker beyond cloning and waking it).
-/

/-- Mirror of `std::task::Poll`. -/
inductive Poll (α : Type) where
  | Ready : α → Poll α
  | Pending : Poll α
deriving DecidableEq, Repr

/-- Mirror of `glib::source::Continue`: the value an idle callback returns to
the glib main loop.  Per glib's documented contract (restated in the spec's
host-collaborator interface), `cont = true` keeps the source installed so the
host loop invokes the callback again; `cont = false` removes the source. -/
structure Continue where
  cont : Bool
deriving DecidableEq, Repr

/-! ## Impulse stream (`src/impulse_stream.rs`) -/

/-- Mirror of `ImpulseStreamInner`: the shared state behind
`ImpulseStream(Rc<RefCell<ImpulseStreamInner>>)`. -/
structure ImpulseStreamInner where
  /-- How many impulse events are waiting to be dequeued. -/
  pending : Nat
  /-- The stored waiting waker, if any; wakers are identified by `Nat` ids. -/
  waker_opt : Option Nat
deriving DecidableEq, Repr

/-- Mirror of `ImpulseStream::new`: counter zero, no stored waker. -/
def ImpulseStream.new : ImpulseStreamInner :=
  { pending := 0, waker_opt := none }

/-- Mirror of `ImpulseStream::trigger`: increment `pending`, then `take` the
stored waker (clearing the slot) and wake it if present.  The second component
reports which waker (if any) was woken by this call. -/
def ImpulseStream.trigger (s : ImpulseStreamInner) :
    ImpulseStreamInner × Option Nat :=
  let s1 : ImpulseStreamInner :=
    { pending := s.pending + 1, waker_opt := s.waker_opt }
  match s1.waker_opt with
  | some w => ({ pending := s1.pending, waker_opt := none }, some w)
  | none => (s1, none)

/-- Mirror of `<ImpulseStream as Stream>::poll_next`: if `pending > 0`,
decrement it and yield `Ready(Some(()))`; otherwise store the calling waker
`cx` and yield `Pending`. -/
def ImpulseStream.poll_next (cx : Nat) (s : ImpulseStreamInner) :
    ImpulseStreamInner × Poll (Option Unit) :=
  if 0 < s.pending then
    ({ pending := s.pending - 1, waker_opt := s.waker_opt },
     Poll.Ready (some ()))
  else
    ({ pending := s.pending, waker_opt := some cx }, Poll.Pending)

/-- Mirror of `ImpulseStream::triggerer`: a closure that ignores its argument
and calls `trigger` on the shared state (in Rust the closure holds an
`Rc` clone, so the effect lands on the same shared cell; here the shared cell's
state at invocation time is the second argument). -/
def ImpulseStream.triggerer {A : Type} : A → ImpulseStreamInner →
    ImpulseStreamInner × Option Nat :=
  fun _ s => ImpulseStream.trigger s

/-! Trace semantics for the impulse stream: a sequence of `trigger` and
`poll_next` calls on one stream, recording how many polls returned ready and
which wakers were resumed. -/

/-- One external call on an impulse stream. -/
inductive ISOp where
  | trigger : ISOp
  | poll : Nat → ISOp
deriving DecidableEq, Repr

/-- A run of an impulse stream: current shared state, how many `poll_next`
calls returned ready so far, and the wakers resumed so far (in order). -/
structure ISRun where
  state : ImpulseStreamInner
  readies : Nat
  wakes : List Nat
deriving DecidableEq, Repr

/-- Apply one call to a run. -/
def ISRun.applyOp (t : ISRun) : ISOp → ISRun
  | ISOp.trigger =>
      let r := ImpulseStream.trigger t.state
      { state := r.1
        readies := t.readies
        wakes := t.wakes ++ (match r.2 with | some w => [w] | none => []) }
  | ISOp.poll cx =>
      let r := ImpulseStream.poll_next cx t.state
      { state := r.1
        readies := t.readies +
          (match r.2 with | Poll.Ready _ => 1 | Poll.Pending => 0)
        wakes := t.wakes }

/-- Apply a sequence of calls to a run. -/
def ISRun.applyOps (t : ISRun) (l : List ISOp) : ISRun :=
  l.foldl ISRun.applyOp t

/-- The run that starts from a freshly constructed stream. -/
def ISRun.start : ISRun :=
  { state := ImpulseStream.new, readies := 0, wakes := [] }

/-- Number of `trigger` calls in a call sequence. -/
def ISOp.triggerCount (l : List ISOp) : Nat :=
  l.countP (fun o => match o with | ISOp.trigger => true | ISOp.poll _ => false)

/-! ## Glib future executor (`src/glib_future.rs`)

The executor state is an `Arc<Mutex<GlibWaker>>` shared between waker handles
and the idle closure, plus the set of idle sources installed in the glib main
loop.  `GlibSystem` bundles the cell together with the observable host-loop
bookkeeping: the Arc strong count, the installed source tokens, and a fresh
token supply standing for `idle_add_local`'s returned `SourceId`s.

The future owned by the cell is left abstract: its state has type `σ` and its
`poll` method is a parameter `pollF : σ → σ × Poll Unit`. -/

/-- Mirror of `GlibWaker`: the boxed future being iterated plus the
`Some(SourceId)` of the scheduled idle callback step, or `None`. -/
structure GlibWaker (σ : Type) where
  fut : σ
  pending_idle_opt : Option Nat
deriving DecidableEq, Repr

/-- The executor cell together with the observable host-loop state. -/
structure GlibSystem (σ : Type) where
  /-- Contents of the `Arc<Mutex<GlibWaker>>`. -/
  cell : GlibWaker σ
  /-- Strong reference count of that `Arc`. -/
  strong : Nat
  /-- Tokens of the idle sources currently installed in the glib main loop. -/
  sources : List Nat
  /-- Fresh-token supply for `idle_add_local`. -/
  nextId : Nat
deriving DecidableEq, Repr

/-- Mirror of `glib_waker_schedule`: if `pending_idle_opt` is already `Some`,
return (no change); otherwise call `idle_add_local(glib_waker_step(arc.clone()))`
— the `arc.clone()` handed to the idle closure raises the strong count by one
and the host installs a new idle source — and record the returned `SourceId`. -/
def glib_waker_schedule {σ : Type} (s : GlibSystem σ) : GlibSystem σ :=
  if s.cell.pending_idle_opt.isSome then s
  else
    { cell := { fut := s.cell.fut, pending_idle_opt := some s.nextId }
      strong := s.strong + 1
      sources := s.sources ++ [s.nextId]
      nextId := s.nextId + 1 }

/-- Mirror of the closure made by `glib_waker_step`: lock the cell, poll the
future once, let `cont = matches!(poll, Poll::Ready(()))`, clear
`pending_idle_opt` when `!cont`, and return `Continue(cont)` to the host loop.
The temporary `Waker` built from `arc.clone()` is dropped before the closure
returns, so it leaves the strong count unchanged; clones the polled future
itself retains are the waker-handle operations modelled separately below. -/
def glib_waker_step {σ : Type} (pollF : σ → σ × Poll Unit)
    (s : GlibSystem σ) : GlibSystem σ × Continue :=
  let fp := pollF s.cell.fut
  let cont : Bool := match fp.2 with | Poll.Ready _ => true | Poll.Pending => false
  ({ s with
      cell := { fut := fp.1
                pending_idle_opt :=
                  if cont then s.cell.pending_idle_opt else none } },
   { cont := cont })

/-- Mirror of `glib_run_future`: build a fresh cell with `pending_idle_opt =
None` (the Arc created here holds one strong reference), schedule it, and drop
the local Arc when the function returns. -/
def glib_run_future {σ : Type} (f : σ) (sources : List Nat) (nextId : Nat) :
    GlibSystem σ :=
  let s0 : GlibSystem σ :=
    { cell := { fut := f, pending_idle_opt := none }
      strong := 1
      sources := sources
      nextId := nextId }
  let s1 := glib_waker_schedule s0
  { s1 with strong := s1.strong - 1 }

/-- Mirror of `glib_waker_clone`: `Arc::increment_strong_count`, then rebuild
the raw waker over the same cell. -/
def glib_waker_clone {σ : Type} (s : GlibSystem σ) : GlibSystem σ :=
  { s with strong := s.strong + 1 }

/-- Mirror of `glib_waker_wake`: take over the handle's strong reference
(`Arc::from_raw`), call `glib_waker_schedule`, then drop the Arc, releasing
that reference. -/
def glib_waker_wake {σ : Type} (s : GlibSystem σ) : GlibSystem σ :=
  let s1 := glib_waker_schedule s
  { s1 with strong := s1.strong - 1 }

/-- Mirror of `glib_waker_wake_by_ref`: take over the handle's reference,
`Arc::increment_strong_count` to compensate, call `glib_waker_schedule`, and
let the local Arc drop at the end of the scope. -/
def glib_waker_wake_by_ref {σ : Type} (s : GlibSystem σ) : GlibSystem σ :=
  let s1 := glib_waker_schedule { s with strong := s.strong + 1 }
  { s1 with strong := s1.strong - 1 }

/-- Mirror of `glib_waker_drop`: take over the handle's reference and drop it;
no scheduling. -/
def glib_waker_drop {σ : Type} (s : GlibSystem σ) : GlibSystem σ :=
  { s with strong := s.strong - 1 }

/-- Host-loop driver for one installed idle source, following the host
contract the executor relies on: the loop invokes the step callback, and keeps
re-invoking it for as long as it returns `Continue(true)`.  `stepCount pollF s
n` is the number of step invocations that occur within `n` host-loop turns. -/
def stepCount {σ : Type} (pollF : σ → σ × Poll Unit) :
    GlibSystem σ → Nat → Nat
  | _, 0 => 0
  | s, n + 1 =>
      let r := glib_waker_step pollF s
      if r.2.cont then stepCount pollF r.1 n + 1 else 1

/-- A future that is `Ready` on every poll (state carries no information). -/
def readyPoll : Unit → Unit × Poll Unit :=
  fun u => (u, Poll.Ready ())

/-- A future that always pends (state carries no information). -/
def pendingPoll : Unit → Unit × Poll Unit :=
  fun u => (u, Poll.Pending)

/-- A concrete executor system whose idle step is installed as source `0`. -/
def sysScheduled : GlibSystem Unit :=
  { cell := { fut := (), pending_idle_opt := some 0 }
    strong := 2
    sources := [0]
    nextId := 1 }

/-- A concrete executor system with no scheduled step and strong count 1. -/
def sysIdle : GlibSystem Unit :=
  { cell := { fut := (), pending_idle_opt := none }
    strong := 1
    sources := []
    nextId := 5 }

/-! ## Helper lemmas -/

/-- Run invariant: along any call sequence, the stored counter plus the number
of ready results equals the starting counter plus the starting ready count
plus the number of triggers — nothing is lost and nothing is duplicated. -/
theorem ISRun.applyOps_pending_add_readies (l : List ISOp) :
    ∀ t : ISRun,
      (t.applyOps l).state.pending + (t.applyOps l).readies
        = t.state.pending + t.readies + ISOp.triggerCount l := by
  induction l with
  | nil =>
      intro t
      simp [ISRun.applyOps, ISOp.triggerCount]
  | cons op l ih =>
      intro t
      have hstep : t.applyOps (op :: l) = (t.applyOp op).applyOps l := by
        simp [ISRun.applyOps]
      rw [hstep, ih]
      cases op with
      | trigger =>
          have hcount : ISOp.triggerCount (ISOp.trigger :: l)
              = ISOp.triggerCount l + 1 := by
            simp [ISOp.triggerCount]
          rw [hcount]
          cases hw : t.state.waker_opt with
          | none =>
              simp [ISRun.applyOp, ImpulseStream.trigger, hw]
              omega
          | some w =>
              simp [ISRun.applyOp, ImpulseStream.trigger, hw]
              omega
      | poll cx =>
          have hcount : ISOp.triggerCount (ISOp.poll cx :: l)
              = ISOp.triggerCount l := by
            simp [ISOp.triggerCount]
          rw [hcount]
          by_cases hp : 0 < t.state.pending
          · simp [ISRun.applyOp, ImpulseStream.poll_next, hp]
            omega
          · simp [ISRun.applyOp, ImpulseStream.poll_next, hp]

/-- A poll yields ready exactly when the stored counter is positive. -/
theorem ImpulseStream.poll_next_ready_iff (cx : Nat) (s : ImpulseStreamInner) :
    (ImpulseStream.poll_next cx s).2 = Poll.Ready (some ()) ↔ 0 < s.pending := by
  unfold ImpulseStream.poll_next
  by_cases hp : 0 < s.pending <;> simp [hp]

/-! ## Claim theorems: impulse stream -/

/-- C3: on one impulse stream, a `poll_next` returns ready exactly when the
number of prior `trigger` calls exceeds the number of prior ready results; in
particular after `trigger(); trigger()` the next two polls are ready and the
third pends (ready counts along that sequence are 1, 2, 2). -/
theorem impulse_poll_ready_iff_more_triggers :
    (∀ (l : List ISOp) (cx : Nat),
        ((ImpulseStream.poll_next cx ((ISRun.start).applyOps l).state).2
            = Poll.Ready (some ())
          ↔ (ISRun.start.applyOps l).readies < ISOp.triggerCount l))
    ∧ (ISRun.start.applyOps
        [ISOp.trigger, ISOp.trigger, ISOp.poll 0]).readies = 1
    ∧ (ISRun.start.applyOps
        [ISOp.trigger, ISOp.trigger, ISOp.poll 0, ISOp.poll 0]).readies = 2
    ∧ (ISRun.start.applyOps
        [ISOp.trigger, ISOp.trigger, ISOp.poll 0, ISOp.poll 0,
         ISOp.poll 0]).readies = 2 := by
  refine ⟨?_, by decide, by decide, by decide⟩
  intro l cx
  have h := ISRun.applyOps_pending_add_readies l ISRun.start
  have hstart : ISRun.start.state.pending = 0 ∧ ISRun.start.readies = 0 := by
    decide
  rw [ImpulseStream.poll_next_ready_iff]
  omega

/-- C5: a stored waiting continuation is resumed at most once: `trigger`
clears the slot and resumes exactly the waker that was stored; a poll that
finds the counter positive stores nothing; and in the concrete sequence
`poll → not-ready; trigger; poll` the stored waker is resumed exactly once and
the final poll is ready. -/
theorem impulse_waiting_resumed_once :
    (∀ s : ImpulseStreamInner,
        (ImpulseStream.trigger s).1.waker_opt = none
        ∧ (ImpulseStream.trigger s).2 = s.waker_opt)
    ∧ (∀ (s : ImpulseStreamInner) (cx : Nat), 0 < s.pending →
        (ImpulseStream.poll_next cx s).1.waker_opt = s.waker_opt)
    ∧ (ISRun.start.applyOps [ISOp.poll 7]).state.waker_opt = some 7
    ∧ (ISRun.start.applyOps [ISOp.poll 7]).readies = 0
    ∧ (ISRun.start.applyOps [ISOp.poll 7, ISOp.trigger]).wakes = [7]
    ∧ (ISRun.start.applyOps
        [ISOp.poll 7, ISOp.trigger]).state.waker_opt = none
    ∧ (ISRun.start.applyOps
        [ISOp.poll 7, ISOp.trigger, ISOp.poll 8]).readies = 1 := by
  refine ⟨?_, ?_, by decide, by decide, by decide, by decide, by decide⟩
  · intro s
    unfold ImpulseStream.trigger
    cases hw : s.waker_opt <;> simp [hw]
  · intro s cx hp
    unfold ImpulseStream.poll_next
    simp [hp]

/-- Witness for the hypotheses of `impulse_waiting_resumed_once`: at the
concrete state with counter 3 and stored waker 9, a poll leaves the stored
waker untouched. -/
theorem impulse_waiting_resumed_once_witness :
    0 < (3 : Nat)
    ∧ (ImpulseStream.poll_next 5
        { pending := 3, waker_opt := some 9 }).1.waker_opt = some 9 :=
  ⟨by decide,
   impulse_waiting_resumed_once.2.1 { pending := 3, waker_opt := some 9 } 5
     (by decide)⟩

/-- C8: `poll_next` never returns the end-of-sequence value `Ready(None)`:
every result is `Ready(Some(()))` or `Pending`. -/
theorem impulse_stream_never_ends :
    ∀ (s : ImpulseStreamInner) (cx : Nat),
      (ImpulseStream.poll_next cx s).2 ≠ Poll.Ready none
      ∧ ((ImpulseStream.poll_next cx s).2 = Poll.Ready (some ())
          ∨ (ImpulseStream.poll_next cx s).2 = Poll.Pending) := by
  intro s cx
  unfold ImpulseStream.poll_next
  by_cases hp : 0 < s.pending <;> simp [hp]

/-- C9: the closure returned by `triggerer` ignores its argument: invoking it
with any argument of any type has exactly the effect of a direct `trigger`
call, and any two arguments produce the same effect. -/
theorem triggerer_ignores_argument :
    ∀ (A : Type) (a b : A) (s : ImpulseStreamInner),
      ImpulseStream.triggerer a s = ImpulseStream.trigger s
      ∧ ImpulseStream.triggerer a s = ImpulseStream.triggerer b s := by
  intro A a b s
  exact ⟨rfl, rfl⟩

/-- C10: `poll_next` touches the waker slot only in its not-ready branch: with
a positive counter it decrements the counter, leaves `waker_opt` unchanged and
resumes nothing (a poll never appends a wake event); with a zero counter it
overwrites the slot with the current caller's waker. -/
theorem poll_next_waker_frame :
    ∀ (s : ImpulseStreamInner) (cx : Nat),
      (0 < s.pending →
        ImpulseStream.poll_next cx s
          = ({ pending := s.pending - 1, waker_opt := s.waker_opt },
             Poll.Ready (some ())))
      ∧ (s.pending = 0 →
        ImpulseStream.poll_next cx s
          = ({ pending := s.pending, waker_opt := some cx }, Poll.Pending))
      ∧ (∀ t : ISRun, (t.applyOp (ISOp.poll cx)).wakes = t.wakes) := by
  intro s cx
  refine ⟨?_, ?_, ?_⟩
  · intro hp
    unfold ImpulseStream.poll_next
    simp [hp]
  · intro hp
    unfold ImpulseStream.poll_next
    simp [hp]
  · intro t
    simp [ISRun.applyOp]

/-- Witness for the hypotheses of `poll_next_waker_frame`: both branches
evaluated at concrete states. -/
theorem poll_next_waker_frame_witness :
    (0 < (2 : Nat)
      ∧ ImpulseStream.poll_next 4 { pending := 2, waker_opt := some 1 }
          = ({ pending := 1, waker_opt := some 1 }, Poll.Ready (some ())))
    ∧ ((0 : Nat) = 0
      ∧ ImpulseStream.poll_next 4 { pending := 0, waker_opt := some 1 }
          = ({ pending := 0, waker_opt := some 4 }, Poll.Pending)) :=
  ⟨⟨by decide,
    (poll_next_waker_frame { pending := 2, waker_opt := some 1 } 4).1
      (by decide)⟩,
   ⟨rfl,
    (poll_next_waker_frame { pending := 0, waker_opt := some 1 } 4).2.1 rfl⟩⟩

/-! ## Claim theorems: glib executor -/

/-- When a step is already scheduled, `glib_waker_wake_by_ref` changes
nothing: the schedule call is a no-op and the transient count increment is
undone when the local Arc drops. -/
theorem glib_waker_wake_by_ref_of_scheduled {σ : Type} (s : GlibSystem σ)
    (h : s.cell.pending_idle_opt.isSome = true) :
    glib_waker_wake_by_ref s = s := by
  cases s with
  | mk cell strong sources nextId =>
      simp [glib_waker_wake_by_ref, glib_waker_schedule, h]

/-- After any `glib_waker_wake_by_ref`, a step is scheduled. -/
theorem glib_waker_wake_by_ref_scheduled {σ : Type} (s : GlibSystem σ) :
    (glib_waker_wake_by_ref s).cell.pending_idle_opt.isSome = true := by
  by_cases h : s.cell.pending_idle_opt.isSome
  <;> simp [glib_waker_wake_by_ref, glib_waker_schedule, h]

/-- Iterating `glib_waker_wake_by_ref` beyond the first call changes
nothing further. -/
theorem glib_waker_wake_by_ref_iter_collapse {σ : Type} (s : GlibSystem σ) :
    ∀ m : Nat,
      glib_waker_wake_by_ref^[m] (glib_waker_wake_by_ref s)
        = glib_waker_wake_by_ref s := by
  intro m
  induction m with
  | zero => rfl
  | succ m ih =>
      rw [Function.iterate_succ_apply,
        glib_waker_wake_by_ref_of_scheduled (glib_waker_wake_by_ref s)
          (glib_waker_wake_by_ref_scheduled s), ih]

/-- C4: `glib_waker_schedule` is idempotent — with a step already scheduled it
changes nothing and registers nothing; otherwise it installs exactly one new
idle source and records the returned token — and therefore waking the same
task any number `n ≥ 1` of times before the next step leaves the host-loop
sources exactly as a single wake does. -/
theorem glib_waker_schedule_idempotent :
    ∀ (σ : Type) (s : GlibSystem σ) (n : Nat),
      (s.cell.pending_idle_opt.isSome = true → glib_waker_schedule s = s)
      ∧ (s.cell.pending_idle_opt = none →
          (glib_waker_schedule s).sources = s.sources ++ [s.nextId]
          ∧ (glib_waker_schedule s).cell.pending_idle_opt = some s.nextId)
      ∧ (1 ≤ n →
          (glib_waker_wake_by_ref^[n] s).sources
            = (glib_waker_wake_by_ref s).sources) := by
  intro σ s n
  refine ⟨?_, ?_, ?_⟩
  · intro h
    simp [glib_waker_schedule, h]
  · intro h
    constructor <;> simp [glib_waker_schedule, h]
  · intro hn
    obtain ⟨m, rfl⟩ : ∃ m, n = m + 1 := ⟨n - 1, by omega⟩
    rw [Function.iterate_succ_apply, glib_waker_wake_by_ref_iter_collapse]

/-- Witness for the hypotheses of `glib_waker_schedule_idempotent`: with a
step scheduled, schedule is a no-op; with none scheduled, it installs exactly
one source, and three wakes install no more than one. -/
theorem glib_waker_schedule_idempotent_witness :
    (glib_waker_schedule sysScheduled = sysScheduled)
    ∧ ((glib_waker_schedule sysIdle).sources = sysIdle.sources ++ [sysIdle.nextId]
        ∧ (glib_waker_schedule sysIdle).cell.pending_idle_opt
            = some sysIdle.nextId)
    ∧ (glib_waker_wake_by_ref^[3] sysIdle).sources
        = (glib_waker_wake_by_ref sysIdle).sources :=
  ⟨(glib_waker_schedule_idempotent Unit sysScheduled 3).1 (by decide),
   (glib_waker_schedule_idempotent Unit sysIdle 3).2.1 rfl,
   (glib_waker_schedule_idempotent Unit sysIdle 3).2.2 (by decide)⟩

/-- C6: `glib_run_future` wraps the future in a fresh cell whose
`pending_idle_opt` starts as `None`, immediately schedules a first step, and
its net effect is exactly one newly installed idle source (token recorded in
the cell); the submit-scope Arc is released, leaving the idle closure's
reference. -/
theorem glib_run_future_schedules_once :
    ∀ (σ : Type) (f : σ) (src : List Nat) (nid : Nat),
      glib_run_future f src nid
        = { cell := { fut := f, pending_idle_opt := some nid }
            strong := 1
            sources := src ++ [nid]
            nextId := nid + 1 } := by
  intro σ f src nid
  simp [glib_run_future, glib_waker_schedule]

/-- C1 (amended): whenever the poll inside the step closure reports
`Poll::Pending`, the step clears `pending_idle_opt` to `None` before returning
— but it returns `Continue(false)`, the stop signal, so the host loop removes
this idle registration; the task is re-polled only through a fresh
registration made by `glib_waker_schedule` when a waker fires. -/
theorem glib_waker_step_pending_clears_and_stops :
    ∀ (σ : Type) (pollF : σ → σ × Poll Unit) (s : GlibSystem σ) (f1 : σ),
      pollF s.cell.fut = (f1, Poll.Pending) →
      (glib_waker_step pollF s).1.cell.pending_idle_opt = none
      ∧ (glib_waker_step pollF s).2.cont = false := by
  intro σ pollF s f1 h
  constructor <;> simp [glib_waker_step, h]

/-- Witness for the hypothesis of `glib_waker_step_pending_clears_and_stops`:
the always-pending future at a concrete scheduled state. -/
theorem glib_waker_step_pending_clears_and_stops_witness :
    pendingPoll sysScheduled.cell.fut = ((), Poll.Pending)
    ∧ ((glib_waker_step pendingPoll sysScheduled).1.cell.pending_idle_opt = none
        ∧ (glib_waker_step pendingPoll sysScheduled).2.cont = false) :=
  ⟨rfl,
   glib_waker_step_pending_clears_and_stops Unit pendingPoll sysScheduled ()
     rfl⟩

/-- C1 counterexample: at a concrete pending poll the claim as stated fails —
the step does clear `pending_idle_opt`, but it does not return the continue
signal: `Continue(cont)` with `cont = matches!(poll, Poll::Ready(()))` is
`Continue(false)` here. -/
theorem glib_waker_step_pending_not_continue :
    ¬ ((glib_waker_step pendingPoll sysScheduled).1.cell.pending_idle_opt = none
        ∧ (glib_waker_step pendingPoll sysScheduled).2.cont = true) := by
  decide

/-- C2, code evaluated at the failing input: for a future that completes on
its very first poll (K = 0), the step returns `Continue(true)` — the
keep-invoking signal, not stop — so under the host contract the idle source
stays installed and the completed future is polled again: three host-loop
turns perform three step invocations where the claim requires exactly one. -/
theorem glib_waker_step_ready_signals_continue :
    (glib_waker_step readyPoll sysScheduled).2.cont = true
    ∧ (glib_waker_step readyPoll sysScheduled).1.cell.pending_idle_opt
        = sysScheduled.cell.pending_idle_opt
    ∧ stepCount readyPoll sysScheduled 3 = 3 := by
  refine ⟨rfl, rfl, ?_⟩
  decide

/-- C7 (amended): `clone` raises the strong count by one and touches nothing
else; `drop` lowers it by one with no scheduling; `wake` consumes its handle
and `wake_by_ref` preserves its handle, but each first calls
`glib_waker_schedule`, which when it registers a step clones one extra handle
into the idle closure — so with a step already scheduled `wake` nets −1
(it coincides with `drop`) and `wake_by_ref` nets 0, while when a step gets
registered `wake` nets 0 and `wake_by_ref` nets +1. -/
theorem glib_waker_vtable_counts :
    ∀ (σ : Type) (s : GlibSystem σ),
      ((glib_waker_clone s).strong = s.strong + 1
        ∧ (glib_waker_clone s).cell = s.cell
        ∧ (glib_waker_clone s).sources = s.sources)
      ∧ ((glib_waker_drop s).strong = s.strong - 1
        ∧ (glib_waker_drop s).cell = s.cell
        ∧ (glib_waker_drop s).sources = s.sources)
      ∧ (s.cell.pending_idle_opt.isSome = true →
          glib_waker_wake s = glib_waker_drop s
          ∧ glib_waker_wake_by_ref s = s)
      ∧ (s.cell.pending_idle_opt = none →
          (glib_waker_wake s).strong = s.strong
          ∧ (glib_waker_wake_by_ref s).strong = s.strong + 1) := by
  intro σ s
  refine ⟨⟨rfl, rfl, rfl⟩, ⟨rfl, rfl, rfl⟩, ?_, ?_⟩
  · intro h
    constructor
    · simp [glib_waker_wake, glib_waker_drop, glib_waker_schedule, h]
    · exact glib_waker_wake_by_ref_of_scheduled s h
  · intro h
    constructor
    · simp [glib_waker_wake, glib_waker_schedule, h]
    · simp [glib_waker_wake_by_ref, glib_waker_schedule, h]

/-- Witness for the hypotheses of `glib_waker_vtable_counts`: both the
already-scheduled and the unscheduled case at concrete states. -/
theorem glib_waker_vtable_counts_witness :
    (glib_waker_wake sysScheduled = glib_waker_drop sysScheduled
      ∧ glib_waker_wake_by_ref sysScheduled = sysScheduled)
    ∧ ((glib_waker_wake sysIdle).strong = sysIdle.strong
      ∧ (glib_waker_wake_by_ref sysIdle).strong = sysIdle.strong + 1) :=
  ⟨(glib_waker_vtable_counts Unit sysScheduled).2.2.1 (by decide),
   (glib_waker_vtable_counts Unit sysIdle).2.2.2 rfl⟩

/-- C7 counterexample: at a concrete state with no step scheduled and strong
count 1, `wake` leaves the count at 1 — the idle closure registered by its
schedule call retains a clone — not one lower than on entry as claimed. -/
theorem glib_waker_wake_count_not_decremented :
    ¬ ((glib_waker_wake sysIdle).strong = sysIdle.strong - 1) := by
  decide
